import Mathlib

/-!
Verification of `Sources/CNIOExtrasZlib/include/CNIOExtrasZlib.h`.

The header is a compatibility shim over zlib: two `static inline`
stream-initialization wrappers and one pointer-cast helper.  We embed it
with three layers, matching what the C compiler sees:

* the linked zlib library, modelled abstractly as a record of the two
  underlying exported functions `deflateInit2_` and `inflateInit2_`
  (each takes the trailing `version` string and `stream_size` arguments
  and acts on an abstract world state `σ`, returning a result code and
  the successor state);
* the expansion of the zlib.h preprocessor definitions `deflateInit2`
  and `inflateInit2`, which is the text the shim's bodies become in this
  translation unit: the call is forwarded to the underscore function
  together with the compile-time constants `ZLIB_VERSION` and
  `(int)sizeof(z_stream)`;
* the shim functions themselves, translated line for line.

Pointers are modelled as addresses (`Nat`), with `0` playing `Z_NULL`.
-/

namespace CNIOExtrasZlib

/-- zlib result code `Z_OK` (zlib.h). -/
def Z_OK : Int := 0

/-- zlib result code `Z_STREAM_ERROR` (zlib.h). -/
def Z_STREAM_ERROR : Int := -2

/-- zlib result code `Z_VERSION_ERROR` (zlib.h). -/
def Z_VERSION_ERROR : Int := -6

/-- A `z_streamp` pointer, modelled as an address; `0` is `Z_NULL`. -/
abbrev ZStreamP := Nat

/-- The null `z_streamp`. -/
def Z_NULL : ZStreamP := 0

/-- The two constants baked into the shim's translation unit when the
header is compiled: the `ZLIB_VERSION` string from the zlib header that
was included, and that header's `sizeof(z_stream)`.  They are fixed at
compile time; no wrapper parameter feeds them. -/
structure ZlibHeader where
  ZLIB_VERSION : String
  sizeof_z_stream : Nat

/-- The linked zlib library, an external collaborator, modelled
abstractly: the two exported initialization functions that the zlib.h
preprocessor definitions expand to.  Each receives the caller-visible
arguments followed by the hidden `version` string and `stream_size`
arguments, reads the world state `σ`, and produces an `Int` result code
together with the successor world state (which covers any mutation of
the pointed-to `z_stream` and of any other state).  Nothing is assumed
about the behaviour of these functions. -/
structure ZlibImpl (σ : Type) where
  deflateInit2Impl : σ → ZStreamP → Int → Int → Int → Int → Int → String → Nat → Int × σ
  inflateInit2Impl : σ → ZStreamP → Int → String → Nat → Int × σ

/-- The zlib.h preprocessor definition `deflateInit2`, as it expands
inside this translation unit:
`deflateInit2_((strm),(level),(method),(windowBits),(memLevel),(strategy),
ZLIB_VERSION, (int)sizeof(z_stream))`. -/
def deflateInit2 {σ : Type} (hdr : ZlibHeader) (lib : ZlibImpl σ) (st : σ)
    (strm : ZStreamP) (level method windowBits memLevel strategy : Int) : Int × σ :=
  lib.deflateInit2Impl st strm level method windowBits memLevel strategy
    hdr.ZLIB_VERSION hdr.sizeof_z_stream

/-- The zlib.h preprocessor definition `inflateInit2`, as it expands
inside this translation unit:
`inflateInit2_((strm), (windowBits), ZLIB_VERSION, (int)sizeof(z_stream))`. -/
def inflateInit2 {σ : Type} (hdr : ZlibHeader) (lib : ZlibImpl σ) (st : σ)
    (strm : ZStreamP) (windowBits : Int) : Int × σ :=
  lib.inflateInit2Impl st strm windowBits hdr.ZLIB_VERSION hdr.sizeof_z_stream

/-- `CNIOExtrasZlib_deflateInit2` from CNIOExtrasZlib.h: the body is the
single statement `return deflateInit2(strm, level, method, windowBits,
memLevel, strategy);`. -/
def CNIOExtrasZlib_deflateInit2 {σ : Type} (hdr : ZlibHeader) (lib : ZlibImpl σ) (st : σ)
    (strm : ZStreamP) (level method windowBits memLevel strategy : Int) : Int × σ :=
  deflateInit2 hdr lib st strm level method windowBits memLevel strategy

/-- `CNIOExtrasZlib_inflateInit2` from CNIOExtrasZlib.h: the body is the
single statement `return inflateInit2(strm, windowBits);`. -/
def CNIOExtrasZlib_inflateInit2 {σ : Type} (hdr : ZlibHeader) (lib : ZlibImpl σ) (st : σ)
    (strm : ZStreamP) (windowBits : Int) : Int × σ :=
  inflateInit2 hdr lib st strm windowBits

/-- A `void *` value, modelled as an address; `0` models `NULL`. -/
structure VoidPtr where
  addr : Nat
deriving DecidableEq

/-- The null `void *`. -/
def VoidPtr.NULL : VoidPtr := ⟨0⟩

/-- A `Bytef *` value, modelled as an address; `0` models `NULL`. -/
structure BytefPtr where
  addr : Nat
deriving DecidableEq

/-- Byte memory, so that the cast helper's (absent) memory effects can be
stated: an address-indexed store. -/
def Mem : Type := Nat → Nat

/-- `CNIOExtrasZlib_voidPtr_to_BytefPtr` from CNIOExtrasZlib.h: the body
is the single statement `return (Bytef *)in;`.  The embedding threads the
byte memory explicitly, as for any C function that could in principle
touch it; the body neither reads nor writes it, so the memory is passed
through and the result is built from the argument's address alone. -/
def CNIOExtrasZlib_voidPtr_to_BytefPtr (m : Mem) (p : VoidPtr) : Mem × BytefPtr :=
  (m, ⟨p.addr⟩)

/-- The standard C conversion of a `Bytef *` back to `void *` (implicit
in C): the address is preserved. -/
def BytefPtr.toVoidPtr (b : BytefPtr) : VoidPtr := ⟨b.addr⟩

/-- zlib's documented windowBits convention for `deflateInit2` /
`inflateInit2`: a negative `windowBits` selects the raw (headerless)
stream format; non-negative values select the zlib-wrapped or (with the
gzip offsets) gzip formats. -/
def isRawWindowBits (w : Int) : Bool := w < 0

/-- An instantiation of the abstract zlib library that reports the
`windowBits` value it was handed as its result code, used to observe
which `windowBits` the shim forwards. -/
def windowBitsProbe : ZlibImpl Nat where
  deflateInit2Impl := fun st _strm _level _method windowBits _memLevel _strategy _v _sz =>
    (windowBits, st)
  inflateInit2Impl := fun st _strm windowBits _v _sz => (windowBits, st)

/-- An instantiation of the abstract zlib library in which both
initialization functions fail with `Z_VERSION_ERROR` for every input, as
an incompatible linked zlib does. -/
def versionErrorLib : ZlibImpl Nat where
  deflateInit2Impl := fun st _strm _level _method _windowBits _memLevel _strategy _v _sz =>
    (Z_VERSION_ERROR, st)
  inflateInit2Impl := fun st _strm _windowBits _v _sz => (Z_VERSION_ERROR, st)

/-- An instantiation of the abstract zlib library in which both
initialization functions fail with `Z_STREAM_ERROR` for every input. -/
def streamErrorLib : ZlibImpl Nat where
  deflateInit2Impl := fun st _strm _level _method _windowBits _memLevel _strategy _v _sz =>
    (Z_STREAM_ERROR, st)
  inflateInit2Impl := fun st _strm _windowBits _v _sz => (Z_STREAM_ERROR, st)

/-- An instantiation of the abstract zlib library in which the deflate
initialization function fails with `Z_STREAM_ERROR` while the inflate
one succeeds with `Z_OK`, so that one wrapper's call fails while the
other's succeeds. -/
def deflateOnlyErrorLib : ZlibImpl Nat where
  deflateInit2Impl := fun st _strm _level _method _windowBits _memLevel _strategy _v _sz =>
    (Z_STREAM_ERROR, st)
  inflateInit2Impl := fun st _strm _windowBits _v _sz => (Z_OK, st)

/-- A sample compiled-in header-constant record, for concrete witnesses:
zlib 1.2.11 with a 112-byte `z_stream`. -/
def hdrSample : ZlibHeader := ⟨"1.2.11", 112⟩

/-- C1: for every argument tuple, each wrapper returns exactly the
integer result code that the delegated zlib initialization routine
(`deflateInit2`, `inflateInit2`, as they expand in this translation
unit) returns for those same arguments — no translation, remapping or
filtering of the code, whatever the linked zlib does. -/
theorem c1_result_code_unchanged {σ : Type} (hdr : ZlibHeader) (lib : ZlibImpl σ) (st : σ)
    (strm : ZStreamP) (level method windowBits memLevel strategy : Int) :
    (CNIOExtrasZlib_deflateInit2 hdr lib st strm level method windowBits memLevel strategy).1 =
      (deflateInit2 hdr lib st strm level method windowBits memLevel strategy).1 ∧
    (CNIOExtrasZlib_inflateInit2 hdr lib st strm windowBits).1 =
      (inflateInit2 hdr lib st strm windowBits).1 :=
  ⟨rfl, rfl⟩

/-- C2: `CNIOExtrasZlib_deflateInit2` exposes all five deflate tuning
parameters and, for every call, hands each one to the underlying zlib
`deflateInit2_` in its corresponding position — none dropped, reordered,
defaulted or altered — whatever the linked zlib does with them. -/
theorem c2_all_tuning_params_forwarded {σ : Type} (hdr : ZlibHeader) (lib : ZlibImpl σ)
    (st : σ) (strm : ZStreamP) (level method windowBits memLevel strategy : Int) :
    CNIOExtrasZlib_deflateInit2 hdr lib st strm level method windowBits memLevel strategy =
      lib.deflateInit2Impl st strm level method windowBits memLevel strategy
        hdr.ZLIB_VERSION hdr.sizeof_z_stream :=
  rfl

/-- C3: the wrappers perform no computation or state mutation of their
own: for every call, the result code and the successor world state (the
`z_stream` state included) after a wrapper call are identical to those
after the corresponding direct zlib call on the same arguments. -/
theorem c3_no_own_effects {σ : Type} (hdr : ZlibHeader) (lib : ZlibImpl σ) (st : σ)
    (strm : ZStreamP) (level method windowBits memLevel strategy : Int) :
    CNIOExtrasZlib_deflateInit2 hdr lib st strm level method windowBits memLevel strategy =
      deflateInit2 hdr lib st strm level method windowBits memLevel strategy ∧
    (CNIOExtrasZlib_deflateInit2 hdr lib st strm level method windowBits memLevel strategy).2 =
      (deflateInit2 hdr lib st strm level method windowBits memLevel strategy).2 ∧
    CNIOExtrasZlib_inflateInit2 hdr lib st strm windowBits =
      inflateInit2 hdr lib st strm windowBits ∧
    (CNIOExtrasZlib_inflateInit2 hdr lib st strm windowBits).2 =
      (inflateInit2 hdr lib st strm windowBits).2 :=
  ⟨rfl, rfl, rfl, rfl⟩

/-- C4: the pointer-cast helper is a pure type reinterpretation: for
every void pointer `p` (`NULL` included) the returned `Bytef` pointer
carries exactly the address of `p`, the byte memory is returned
untouched (no write), and the returned pointer does not depend on the
memory at all (no read). -/
theorem c4_cast_pure_reinterpretation (m : Mem) (p : VoidPtr) :
    ((CNIOExtrasZlib_voidPtr_to_BytefPtr m p).2).addr = p.addr ∧
    (CNIOExtrasZlib_voidPtr_to_BytefPtr m p).1 = m ∧
    (∀ m2 : Mem, (CNIOExtrasZlib_voidPtr_to_BytefPtr m2 p).2 =
      (CNIOExtrasZlib_voidPtr_to_BytefPtr m p).2) ∧
    ((CNIOExtrasZlib_voidPtr_to_BytefPtr m VoidPtr.NULL).2).addr = 0 :=
  ⟨rfl, rfl, fun _ => rfl, rfl⟩

/-- C6: the shim introduces no failure modes of its own: for every call
to either wrapper, taken separately, whenever that wrapper's observed
result code is not `Z_OK`, that very code is the one the underlying zlib
function produced for the same arguments; the shim has no error branch
and no code of its own. -/
theorem c6_failures_come_from_zlib {σ : Type} (hdr : ZlibHeader) (lib : ZlibImpl σ) (st : σ)
    (strm : ZStreamP) (level method windowBits memLevel strategy : Int) :
    ((CNIOExtrasZlib_deflateInit2 hdr lib st strm level method windowBits
        memLevel strategy).1 ≠ Z_OK →
      (CNIOExtrasZlib_deflateInit2 hdr lib st strm level method windowBits memLevel
        strategy).1 =
        (lib.deflateInit2Impl st strm level method windowBits memLevel strategy
          hdr.ZLIB_VERSION hdr.sizeof_z_stream).1) ∧
    ((CNIOExtrasZlib_inflateInit2 hdr lib st strm windowBits).1 ≠ Z_OK →
      (CNIOExtrasZlib_inflateInit2 hdr lib st strm windowBits).1 =
        (lib.inflateInit2Impl st strm windowBits hdr.ZLIB_VERSION
          hdr.sizeof_z_stream).1) :=
  ⟨fun _ => rfl, fun _ => rfl⟩

/-- C6 witness: with a linked zlib whose deflate initialization fails
with `Z_STREAM_ERROR` while its inflate initialization succeeds, the
deflate wrapper's observed failing code is exactly the code the library
produced; and with a library failing on the inflate side too, likewise
for the inflate wrapper. -/
theorem c6_failures_come_from_zlib_witness :
    (CNIOExtrasZlib_deflateInit2 hdrSample deflateOnlyErrorLib 0 1 6 8 15 8 0).1 ≠ Z_OK ∧
    (CNIOExtrasZlib_deflateInit2 hdrSample deflateOnlyErrorLib 0 1 6 8 15 8 0).1 =
      (deflateOnlyErrorLib.deflateInit2Impl 0 1 6 8 15 8 0
        hdrSample.ZLIB_VERSION hdrSample.sizeof_z_stream).1 ∧
    (CNIOExtrasZlib_inflateInit2 hdrSample streamErrorLib 0 1 15).1 ≠ Z_OK ∧
    (CNIOExtrasZlib_inflateInit2 hdrSample streamErrorLib 0 1 15).1 =
      (streamErrorLib.inflateInit2Impl 0 1 15
        hdrSample.ZLIB_VERSION hdrSample.sizeof_z_stream).1 :=
  ⟨by decide,
    (c6_failures_come_from_zlib hdrSample deflateOnlyErrorLib 0 1 6 8 15 8 0).1
      (by decide),
    by decide,
    (c6_failures_come_from_zlib hdrSample streamErrorLib 0 1 6 8 15 8 0).2
      (by decide)⟩

/-- C7: round trip of the cast helper: converting the produced `Bytef`
pointer back to `void *` yields the original pointer, `NULL` maps to
`NULL`, and the helper is a total function of its arguments. -/
theorem c7_cast_roundtrip (m : Mem) (p : VoidPtr) :
    BytefPtr.toVoidPtr (CNIOExtrasZlib_voidPtr_to_BytefPtr m p).2 = p ∧
    (CNIOExtrasZlib_voidPtr_to_BytefPtr m VoidPtr.NULL).2 = ⟨0⟩ :=
  ⟨rfl, rfl⟩

/-- C8: each wrapper's delegated call is to the underscore function with
the two hidden trailing arguments fixed to the compile-time constants
`ZLIB_VERSION` and `sizeof(z_stream)` — for every caller argument tuple,
so callers cannot supply or override them — and if the linked zlib is
incompatible with those compiled-in constants (its initialization
functions answer `Z_VERSION_ERROR` whenever handed them), every wrapper
call returns `Z_VERSION_ERROR`, independently of the caller's explicit
parameters. -/
theorem c8_hidden_version_args {σ : Type} (hdr : ZlibHeader) (lib : ZlibImpl σ)
    (hdef : ∀ (st : σ) (strm : ZStreamP) (level method windowBits memLevel strategy : Int),
      (lib.deflateInit2Impl st strm level method windowBits memLevel strategy
        hdr.ZLIB_VERSION hdr.sizeof_z_stream).1 = Z_VERSION_ERROR)
    (hinf : ∀ (st : σ) (strm : ZStreamP) (windowBits : Int),
      (lib.inflateInit2Impl st strm windowBits
        hdr.ZLIB_VERSION hdr.sizeof_z_stream).1 = Z_VERSION_ERROR) :
    ∀ (st : σ) (strm : ZStreamP) (level method windowBits memLevel strategy : Int),
      CNIOExtrasZlib_deflateInit2 hdr lib st strm level method windowBits memLevel strategy =
        lib.deflateInit2Impl st strm level method windowBits memLevel strategy
          hdr.ZLIB_VERSION hdr.sizeof_z_stream ∧
      CNIOExtrasZlib_inflateInit2 hdr lib st strm windowBits =
        lib.inflateInit2Impl st strm windowBits hdr.ZLIB_VERSION hdr.sizeof_z_stream ∧
      (CNIOExtrasZlib_deflateInit2 hdr lib st strm level method windowBits memLevel
        strategy).1 = Z_VERSION_ERROR ∧
      (CNIOExtrasZlib_inflateInit2 hdr lib st strm windowBits).1 = Z_VERSION_ERROR :=
  fun st strm level method windowBits memLevel strategy =>
    ⟨rfl, rfl, hdef st strm level method windowBits memLevel strategy,
      hinf st strm windowBits⟩

/-- C8 witness: with a linked zlib that answers `Z_VERSION_ERROR`
throughout, a concrete wrapper call delegates with the compiled-in
constants and returns `Z_VERSION_ERROR`. -/
theorem c8_hidden_version_args_witness :
    CNIOExtrasZlib_deflateInit2 hdrSample versionErrorLib 0 1 6 8 (-15) 8 0 =
      versionErrorLib.deflateInit2Impl 0 1 6 8 (-15) 8 0
        hdrSample.ZLIB_VERSION hdrSample.sizeof_z_stream ∧
    CNIOExtrasZlib_inflateInit2 hdrSample versionErrorLib 0 1 (-15) =
      versionErrorLib.inflateInit2Impl 0 1 (-15)
        hdrSample.ZLIB_VERSION hdrSample.sizeof_z_stream ∧
    (CNIOExtrasZlib_deflateInit2 hdrSample versionErrorLib 0 1 6 8 (-15) 8 0).1 =
      Z_VERSION_ERROR ∧
    (CNIOExtrasZlib_inflateInit2 hdrSample versionErrorLib 0 1 (-15)).1 = Z_VERSION_ERROR :=
  c8_hidden_version_args hdrSample versionErrorLib
    (fun _ _ _ _ _ _ _ => rfl) (fun _ _ _ => rfl) 0 1 6 8 (-15) 8 0

/-- C9: neither wrapper validates any argument before delegating: even a
`NULL` `strm` and arbitrary (hence possibly out-of-range) `level`,
`method`, `windowBits`, `memLevel` and `strategy` values are handed to
the underlying zlib function unchecked and unchanged, and the result is
whatever that function decides — the shim clamps and rejects nothing. -/
theorem c9_no_argument_validation {σ : Type} (hdr : ZlibHeader) (lib : ZlibImpl σ) (st : σ)
    (level method windowBits memLevel strategy : Int) :
    CNIOExtrasZlib_deflateInit2 hdr lib st Z_NULL level method windowBits memLevel strategy =
      lib.deflateInit2Impl st Z_NULL level method windowBits memLevel strategy
        hdr.ZLIB_VERSION hdr.sizeof_z_stream ∧
    CNIOExtrasZlib_inflateInit2 hdr lib st Z_NULL windowBits =
      lib.inflateInit2Impl st Z_NULL windowBits hdr.ZLIB_VERSION hdr.sizeof_z_stream ∧
    ∀ strm : ZStreamP,
      CNIOExtrasZlib_deflateInit2 hdr lib st strm level method windowBits memLevel strategy =
        lib.deflateInit2Impl st strm level method windowBits memLevel strategy
          hdr.ZLIB_VERSION hdr.sizeof_z_stream ∧
      CNIOExtrasZlib_inflateInit2 hdr lib st strm windowBits =
        lib.inflateInit2Impl st strm windowBits hdr.ZLIB_VERSION hdr.sizeof_z_stream :=
  ⟨rfl, rfl, fun _ => ⟨rfl, rfl⟩⟩

/-- C5 counterexample: it is not the case that every call delegates to
zlib configured for the raw (headerless) stream format.  A call with
`windowBits = 15` forwards `15` to the delegated routine (observed with
the windowBits-reporting library), and `15` is not a raw `windowBits`
value under zlib's convention — it selects the zlib-wrapped format. -/
theorem c5_counterexample :
    (CNIOExtrasZlib_deflateInit2 hdrSample windowBitsProbe 0 1 6 8 15 8 0).1 = 15 ∧
    (CNIOExtrasZlib_inflateInit2 hdrSample windowBitsProbe 0 1 15).1 = 15 ∧
    isRawWindowBits 15 = false := by
  decide

/-- C5 (amended): the wrappers delegate to `deflateInit2` /
`inflateInit2`, the zlib initialization routines that support the raw
(headerless) stream format, forwarding the caller's `windowBits`
unchanged; the delegated call is configured for the raw format exactly
when the caller passes a negative `windowBits`. -/
theorem c5_raw_iff_negative_windowBits {σ : Type} (hdr : ZlibHeader) (lib : ZlibImpl σ)
    (st : σ) (strm : ZStreamP) (level method windowBits memLevel strategy : Int) :
    CNIOExtrasZlib_deflateInit2 hdr lib st strm level method windowBits memLevel strategy =
      deflateInit2 hdr lib st strm level method windowBits memLevel strategy ∧
    CNIOExtrasZlib_inflateInit2 hdr lib st strm windowBits =
      inflateInit2 hdr lib st strm windowBits ∧
    (isRawWindowBits windowBits = true ↔ windowBits < 0) := by
  refine ⟨rfl, rfl, ?_⟩
  simp [isRawWindowBits]

end CNIOExtrasZlib
